import Mathlib

/-!
Verification of the GraphQL API backend (`src/api-server/src/graphql/schema.rs`)
against its natural-language specification.

The resolver layer (`QueryRoot` / `MutationRoot`) is embedded directly from the
source file.  The authentication module (`Auth`, `RoleGuard`) is referenced by
the source but its file is not part of the sources available here, so its
operations (`create_token`, `verify_token`, `hash_password`, `verify_password`,
`check_password_strength`, the role guard) are modelled from the specification;
each such definition says so in its doc comment.

The database is modelled as an in-memory store of rows per entity; a sea_orm
`find().filter(...).one(db)` becomes `List.find?`, and `insert ... exec_with_returning`
becomes an append together with a deterministic fresh-id assignment (the id
column is database-assigned in the source).  A Rust `.unwrap()` on an absent
row is modelled by an explicit `panic` outcome constructor.
-/

/-- Error taxonomy of the spec (§7) together with the concrete error strings the
resolvers return. -/
inductive Err
  /-- no token / invalid or expired token (`UnauthenticatedError`). -/
  | unauthenticated
  /-- valid token, role not in the operation's accepted set (`ForbiddenError`). -/
  | forbidden
  /-- signature failure, malformed token or expiry inside `verify_token`. -/
  | invalidToken
  /-- expected row absent (`NotFoundError`). -/
  | notFound
  /-- `"User already exists"` in `register_user`. -/
  | duplicateEmail
  /-- `"Invalid role"` in `register_user`. -/
  | invalidRole
  /-- password strength policy violation (`PolicyError`). -/
  | policy
  /-- `"Invalid password"` in `login`. -/
  | passwordMismatch
  /-- `"Password not readable, please reset password"` in `login`. -/
  | unreadableHash
  /-- the token's user_id string does not parse as an integer (`InvalidIdentityError`). -/
  | invalidIdentity
deriving Repr, DecidableEq

/-- Outcome of a resolver: a value, a reported error, or a Rust panic
(an `.unwrap()` executed on `None`). -/
inductive Outcome (α : Type)
  | ok (a : α)
  | err (e : Err)
  | panic
deriving Repr, DecidableEq

/-- `ROLE_CUSTOMER` from the auth module. Modelled from the spec: one of the
"two recognized role strings"; it must coincide with the serialized form of
`UserRole::Customer` for `register_user`'s role match and the guards to line up. -/
def ROLE_CUSTOMER : String := "customer"

/-- `ROLE_SUPPLIER` from the auth module (see `ROLE_CUSTOMER`). -/
def ROLE_SUPPLIER : String := "supplier"

/-- `UserRole` (sea_orm active enum) — the `role` column of the users table. -/
inductive UserRole
  | customer
  | supplier
deriving Repr, DecidableEq

/-- `UserRole::to_value()`: serialized role string stored in tokens. -/
def UserRole.to_value : UserRole → String
  | .customer => ROLE_CUSTOMER
  | .supplier => ROLE_SUPPLIER

/-- The `{user_id, role}` pair returned by `verify_token`.  Per the spec (§4.1)
`user_id` is "a string representation that downstream callers must parse to an
integer", so the field is a `String`. -/
structure Identity where
  user_id : String
  role : String
deriving Repr, DecidableEq

/-- Modelled from the spec: a Token is "an opaque signed string encoding an
Identity plus expiry" (§3).  A token either carries a well-signed payload
(identity claims plus expiry instant) or is malformed/badly signed.  The
`user_id` claim is a string, since verification "does not itself guarantee
numeric well-formedness" (§4.1). -/
inductive Token
  | signed (user_id : String) (role : String) (expiry : Nat)
  | malformed (raw : String)
deriving Repr, DecidableEq

/-- Lifetime granted to freshly created tokens (any positive constant). -/
def token_lifetime : Nat := 3600

/-- Modelled from the spec: `create_token(user_id, role) -> Token`,
"deterministic encoding of identity + role + issued/expiry timestamps, signed
with a process-wide secret key" (§4.1).  `user_id` is an integer at creation
(the users table key) and is encoded as its decimal string. -/
def create_token (user_id : Int) (role : String) (now : Nat) : Token :=
  .signed (toString user_id) role (now + token_lifetime)

/-- Modelled from the spec: `verify_token(token) -> Identity`, failing with
`InvalidTokenError` "if the signature does not verify, the token is malformed,
or it has expired"; on success returning the embedded `{user_id, role}` (§4.1). -/
def verify_token (t : Token) (now : Nat) : Except Err Identity :=
  match t with
  | .signed uid role expiry =>
      if now < expiry then .ok ⟨uid, role⟩ else .error .invalidToken
  | .malformed _ => .error .invalidToken

/-- A stored password-hash column value.  Modelled from the spec:
`hash_password` produces a recognized salted encoding, and `verify_password`
"fails with `UnreadableHashError` if `hash` is not a recognized hash encoding
(e.g. corrupted/legacy format)" (§4.1).  The digest is modelled as the exact
preimage (a perfect hash), which is what makes the spec's round-trip laws (§8)
hold; the salt is carried but plays no distinguishing role in the model. -/
inductive StoredHash
  | hashed (salt : Nat) (digest : String)
  | unreadable (raw : String)
deriving Repr, DecidableEq

/-- Modelled from the spec: `hash_password(plaintext) -> hash`, "one-way,
salted" (§4.1).  The salt, generated internally by the real implementation, is
an explicit argument here. -/
def hash_password (salt : Nat) (plaintext : String) : StoredHash :=
  .hashed salt plaintext

/-- Modelled from the spec: `verify_password(plaintext, hash) -> boolean`;
an unrecognized encoding is an `UnreadableHashError`, a wrong password is
`Ok false`, not an error (§4.1). -/
def verify_password (plaintext : String) (h : StoredHash) : Except Err Bool :=
  match h with
  | .hashed _ digest => .ok (digest == plaintext)
  | .unreadable _ => .error .unreadableHash

/-- Modelled from the spec: `check_password_strength(plaintext)` "rejects
passwords failing a minimum policy (length/character-class rules)" (§4.1); the
exact rules are unspecified beyond the example that `"weak"` fails (§8), so the
model keeps a minimum-length rule. -/
def check_password_strength (plaintext : String) : Except Err Unit :=
  if 8 ≤ plaintext.length then .ok () else .error .policy

/-- Modelled from the spec: the Role Guard (§4.2) "extracts the Identity via
Token Service and fails the operation (before any side effect) with
`ForbiddenError` if the Identity's role is not in the accepted set, or
`UnauthenticatedError` if no/invalid token was supplied". -/
def role_guard (accepted : List String) (token : Option Token) (now : Nat) :
    Except Err Identity :=
  match token with
  | none => .error .unauthenticated
  | some t =>
      match verify_token t now with
      | .error _ => .error .unauthenticated
      | .ok ident =>
          if ident.role ∈ accepted then .ok ident
          else .error .forbidden

/-! ## Data store -/

/-- A row of the `users` table (`user_id` is the database-assigned key). -/
structure UserRow where
  user_id : Int
  email : String
  password : StoredHash
  role : UserRole
deriving Repr, DecidableEq

/-- A row of the `customers` table. -/
structure CustomerRow where
  customer_id : Int
  first_name : String
  last_name : String
  user_id : Int
deriving Repr, DecidableEq

/-- A row of the `suppliers` table. -/
structure SupplierRow where
  supplier_id : Int
  user_id : Int
  contact_phone : String
deriving Repr, DecidableEq

/-- A row of the `products` table; the three filterable foreign-key columns are
nullable (the spec's scenario (§8) has products with `base=null`). -/
structure ProductRow where
  product_id : Int
  name : String
  category_id : Option Int
  supplier_id : Option Int
  base_product_id : Option Int
deriving Repr, DecidableEq

/-- The database contents seen through the entity API. -/
structure Store where
  users : List UserRow
  customers : List CustomerRow
  suppliers : List SupplierRow
  products : List ProductRow
deriving Repr, DecidableEq

/-- Database-assigned fresh key for an insert into `users`
(`exec_with_returning`); any deterministic fresh assignment models it. -/
def next_user_id (st : Store) : Int :=
  (st.users.map (·.user_id)).foldr max 0 + 1

/-- Database-assigned fresh key for an insert into `customers`. -/
def next_customer_id (st : Store) : Int :=
  (st.customers.map (·.customer_id)).foldr max 0 + 1

/-- Database-assigned fresh key for an insert into `suppliers`. -/
def next_supplier_id (st : Store) : Int :=
  (st.suppliers.map (·.supplier_id)).foldr max 0 + 1

/-! ## `products_with_id` filter construction -/

/-- One sea_orm equality comparison `column.eq(value)` as built by
`products_with_id`; a `none` value is an absent filter compared as null. -/
inductive SimpleExpr
  | eqCat (v : Option Int)
  | eqSup (v : Option Int)
  | eqBase (v : Option Int)
deriving Repr, DecidableEq

/-- The filter expression handed to `.filter(...)`: an atom or an `.and(...)`
conjunction. -/
inductive FilterExpr
  | atom (e : SimpleExpr)
  | and (a b : FilterExpr)
deriving Repr, DecidableEq

/-- The `match (category_id, supplier_id, base_product_id)` of
`products_with_id` (schema.rs lines 40–50), transcribed arm by arm.  The `_`
arm is `CategoryId.eq(category_id).and(SupplierId.eq(supplier_id)).and(BaseProductId.eq(base_product_id))`,
which associates as `(cat ∧ sup) ∧ base`. -/
def products_with_id_filter (category_id supplier_id base_product_id : Option Int) :
    FilterExpr :=
  match category_id, supplier_id, base_product_id with
  | some category_id, none, none => .atom (.eqCat (some category_id))
  | none, some supplier_id, none => .atom (.eqSup (some supplier_id))
  | none, none, some base_product_id => .atom (.eqBase (some base_product_id))
  | category_id, supplier_id, base_product_id =>
      .and (.and (.atom (.eqCat category_id)) (.atom (.eqSup supplier_id)))
        (.atom (.eqBase base_product_id))

/-- Number of present filters among the three optional arguments. -/
def presentCount (c s b : Option Int) : Nat :=
  (if c.isSome then 1 else 0) + (if s.isSome then 1 else 0) +
    (if b.isSome then 1 else 0)

/-- The filter rule as the claim states it: "if exactly one of category_id,
supplier_id, base_product_id is present, the query filters by equality on that
single field only; in every other case (zero, two, or three present) it filters
by the conjunction of equality comparisons on all three fields, with absent
filters compared as null/empty". -/
def products_with_id_filter_spec (c s b : Option Int) : FilterExpr :=
  if presentCount c s b = 1 then
    if c.isSome then .atom (.eqCat c)
    else if s.isSome then .atom (.eqSup s)
    else .atom (.eqBase b)
  else
    .and (.and (.atom (.eqCat c)) (.atom (.eqSup s))) (.atom (.eqBase b))

/-! ## Query resolvers

Each guarded resolver runs its role guard first (the `#[graphql(guard = ...)]`
attribute evaluates before the resolver body) and then the body.  The body's
own `Auth::verify_token(&token)?` is the same verification the guard performed
on the same token, so the identity obtained by the guard is reused.  The
`map_err(|_| "...not found")` in the source converts *database* errors, which
the pure store model does not produce; the subsequent `.unwrap()` on the
`Option` row is the `panic` outcome. -/

/-- `get_user` (schema.rs lines 95–113): guard `role_guard!(ROLE_CUSTOMER,
ROLE_SUPPLIER)`, then find the users row whose integer `user_id` column equals
the identity's user_id string (the string is used directly, never parsed), and
`.unwrap()` the row. -/
def get_user (token : Option Token) (now : Nat) (st : Store) : Outcome UserRow :=
  match role_guard [ROLE_CUSTOMER, ROLE_SUPPLIER] token now with
  | .error e => .err e
  | .ok ident =>
      match st.users.find? (fun u => toString u.user_id == ident.user_id) with
      | some user => .ok user
      | none => .panic

/-- `customer_profile` (schema.rs lines 115–133): guard
`role_guard!(ROLE_CUSTOMER)`, then the same unparsed-user_id lookup on the
`customers` table, `.unwrap()`ed. -/
def customer_profile (token : Option Token) (now : Nat) (st : Store) :
    Outcome CustomerRow :=
  match role_guard [ROLE_CUSTOMER] token now with
  | .error e => .err e
  | .ok ident =>
      match st.customers.find? (fun c => toString c.user_id == ident.user_id) with
      | some customer => .ok customer
      | none => .panic

/-- `supplier_profile` (schema.rs lines 135–153): guard
`role_guard!(ROLE_SUPPLIER)`, then the same unparsed-user_id lookup on the
`suppliers` table, `.unwrap()`ed. -/
def supplier_profile (token : Option Token) (now : Nat) (st : Store) :
    Outcome SupplierRow :=
  match role_guard [ROLE_SUPPLIER] token now with
  | .error e => .err e
  | .ok ident =>
      match st.suppliers.find? (fun s => toString s.user_id == ident.user_id) with
      | some supplier => .ok supplier
      | none => .panic

/-! ## Mutation resolvers -/

/-- Accumulate decimal digits; any non-digit character aborts the parse. -/
def digitsVal : List Char → Option Nat → Option Nat
  | [], acc => acc
  | c :: cs, acc =>
      match acc with
      | none => none
      | some n =>
          if c.isDigit then digitsVal cs (some (n * 10 + (c.toNat - 48)))
          else none

/-- Rust `str::parse::<i32>`: an optional sign followed by at least one decimal
digit; any other character fails.  The i32 range bound is not modelled (the
claims under verification concern only the numeric/non-numeric distinction). -/
def parse_i32 (s : String) : Option Int :=
  match s.data with
  | [] => none
  | '-' :: rest =>
      match digitsVal rest (some 0) with
      | some n => if rest.isEmpty then none else some (-(n : Int))
      | none => none
  | '+' :: rest =>
      match digitsVal rest (some 0) with
      | some n => if rest.isEmpty then none else some (n : Int)
      | none => none
  | cs =>
      match digitsVal cs (some 0) with
      | some n => some (n : Int)
      | none => none

/-- `RegisterUser` input (email, password, role string). -/
structure RegisterUser where
  email : String
  password : String
  role : String
deriving Repr, DecidableEq

/-- `RegisterCustomer` input. -/
structure RegisterCustomer where
  first_name : String
  last_name : String
deriving Repr, DecidableEq

/-- `RegisterSupplier` input. -/
structure RegisterSupplier where
  contact_phone : String
deriving Repr, DecidableEq

/-- Result of `register_user`: the returned value (a token on success), the
store after the call, and whether `Auth::hash_password` was invoked — the last
component makes "the strength check runs strictly before hashing" observable in
the pure model. -/
structure RegisterUserResult where
  result : Outcome Token
  store : Store
  hashed : Bool
deriving Repr, DecidableEq

/-- `register_user` (schema.rs lines 158–200), step for step:
1. find a users row by email; if one exists return `"User already exists"`;
2. match the role string against `ROLE_CUSTOMER` / `ROLE_SUPPLIER`, otherwise
   return `"Invalid role"`;
3. `check_password_strength`, returning its error on failure, hashing the
   password on success;
4. insert the row (database assigns `user_id`) and return
   `create_token(user_id, role.to_value())`.
The salt of `hash_password`, internal to the real `Auth`, is fixed to 0. -/
def register_user (input : RegisterUser) (now : Nat) (st : Store) :
    RegisterUserResult :=
  if (st.users.find? (fun u => u.email == input.email)).isSome then
    ⟨.err .duplicateEmail, st, false⟩
  else
    match (if input.role == ROLE_CUSTOMER then some UserRole.customer
      else if input.role == ROLE_SUPPLIER then some UserRole.supplier
      else none) with
    | none => ⟨.err .invalidRole, st, false⟩
    | some role =>
        match check_password_strength input.password with
        | .error e => ⟨.err e, st, false⟩
        | .ok _ =>
            let password := hash_password 0 input.password
            let uid := next_user_id st
            let row : UserRow := ⟨uid, input.email, password, role⟩
            ⟨.ok (create_token uid role.to_value now),
              { st with users := st.users ++ [row] }, true⟩

/-- `register_customer` (schema.rs lines 202–225): guard
`role_guard!(ROLE_CUSTOMER)`; the body parses the verified identity's
`user_id` with `.parse::<i32>()?` (the one place besides `register_supplier`
where the string is parsed) and inserts a customers row with it. -/
def register_customer (input : RegisterCustomer) (token : Option Token)
    (now : Nat) (st : Store) : Outcome CustomerRow × Store :=
  match role_guard [ROLE_CUSTOMER] token now with
  | .error e => (.err e, st)
  | .ok ident =>
      match parse_i32 ident.user_id with
      | none => (.err .invalidIdentity, st)
      | some uid =>
          let row : CustomerRow :=
            ⟨next_customer_id st, input.first_name, input.last_name, uid⟩
          (.ok row, { st with customers := st.customers ++ [row] })

/-- `register_supplier` (schema.rs lines 227–249): guard
`role_guard!(ROLE_SUPPLIER)`; same `.parse::<i32>()?` pattern with the supplier
contact field. -/
def register_supplier (input : RegisterSupplier) (token : Option Token)
    (now : Nat) (st : Store) : Outcome SupplierRow × Store :=
  match role_guard [ROLE_SUPPLIER] token now with
  | .error e => (.err e, st)
  | .ok ident =>
      match parse_i32 ident.user_id with
      | none => (.err .invalidIdentity, st)
      | some uid =>
          let row : SupplierRow :=
            ⟨next_supplier_id st, uid, input.contact_phone⟩
          (.ok row, { st with suppliers := st.suppliers ++ [row] })

/-- `LoginUser` input. -/
structure LoginUser where
  email : String
  password : String
deriving Repr, DecidableEq

/-- `login` (schema.rs lines 251–278): find the users row by email — the
`map_err(|_| "User not found")` converts only database errors, and the
`.unwrap()` on the `Option` panics when no row matched; then
`verify_password`: `Ok(true)` returns `create_token(user_id, role)`,
`Ok(false)` returns `"Invalid password"`, `Err(_)` returns
`"Password not readable, please reset password"`. -/
def login (login_details : LoginUser) (now : Nat) (st : Store) : Outcome Token :=
  match st.users.find? (fun u => u.email == login_details.email) with
  | none => .panic
  | some user =>
      match verify_password login_details.password user.password with
      | .ok true => .ok (create_token user.user_id user.role.to_value now)
      | .ok false => .err .passwordMismatch
      | .error _ => .err .unreadableHash

/-! ## Claims -/

/-- C1: for every combination of the three optional filters of
`products_with_id`, the constructed filter is exactly the one the claim
describes — a single equality when exactly one filter is present, and the
conjunction of equality comparisons on all three fields (absent ones compared
as null) in every other case. -/
theorem products_with_id_filter_matches_spec (c s b : Option Int) :
    products_with_id_filter c s b = products_with_id_filter_spec c s b := by
  cases c <;> cases s <;> cases b <;> rfl

/-- C4: verifying a token freshly created for a user id and role, at any time
before the token's expiry, returns exactly that identity, the user id as its
string representation. -/
theorem verify_create_token_round_trip (id : Int) (role : String) (t0 t : Nat)
    (h : t < t0 + token_lifetime) :
    verify_token (create_token id role t0) t = .ok ⟨toString id, role⟩ := by
  simp [create_token, verify_token, h]

/-- Witness for C4 at id 7, role customer, created and verified at time 0. -/
theorem verify_create_token_round_trip_witness :
    (0 : Nat) < 0 + token_lifetime ∧
      verify_token (create_token 7 ROLE_CUSTOMER 0) 0 =
        .ok ⟨toString (7 : Int), ROLE_CUSTOMER⟩ :=
  ⟨by decide, verify_create_token_round_trip 7 ROLE_CUSTOMER 0 0 (by decide)⟩

/-- C5: verifying a password against its own hash yields `true`; verifying any
distinct password against that hash yields `false` (in both cases an ordinary
boolean result, not an error). -/
theorem verify_password_round_trip (salt : Nat) (p p2 : String) (h : p2 ≠ p) :
    verify_password p (hash_password salt p) = .ok true ∧
      verify_password p2 (hash_password salt p) = .ok false := by
  refine ⟨by simp [verify_password, hash_password], ?_⟩
  simp only [verify_password, hash_password]
  simp [beq_eq_false_iff_ne]
  exact fun hc => h hc.symm

/-- Witness for C5 with two concrete distinct plaintexts. -/
theorem verify_password_round_trip_witness :
    ("hunter2x" : String) ≠ "correct horse" ∧
      (verify_password "correct horse" (hash_password 0 "correct horse") = .ok true ∧
        verify_password "hunter2x" (hash_password 0 "correct horse") = .ok false) :=
  ⟨by decide, verify_password_round_trip 0 "correct horse" "hunter2x" (by decide)⟩

/-! ## Helper lemmas about the role guard -/

/-- With no token the guard reports `UnauthenticatedError`. -/
theorem role_guard_none (accepted : List String) (now : Nat) :
    role_guard accepted none now = .error .unauthenticated := rfl

/-- With a token that fails verification the guard reports
`UnauthenticatedError`. -/
theorem role_guard_invalid (accepted : List String) (t : Token) (now : Nat)
    (e : Err) (h : verify_token t now = .error e) :
    role_guard accepted (some t) now = .error .unauthenticated := by
  simp [role_guard, h]

/-- With a verified identity whose role is outside the accepted set the guard
reports `ForbiddenError`. -/
theorem role_guard_forbidden (accepted : List String) (t : Token) (now : Nat)
    (ident : Identity) (hver : verify_token t now = .ok ident)
    (h : ident.role ∉ accepted) :
    role_guard accepted (some t) now = .error .forbidden := by
  simp [role_guard, hver, h]

/-- With a verified identity whose role is accepted the guard passes the
identity through. -/
theorem role_guard_ok (accepted : List String) (t : Token) (now : Nat)
    (ident : Identity) (hver : verify_token t now = .ok ident)
    (h : ident.role ∈ accepted) :
    role_guard accepted (some t) now = .ok ident := by
  simp [role_guard, hver, h]

/-- The guard only ever produces `UnauthenticatedError`, `ForbiddenError`, or
an identity. -/
theorem role_guard_error_cases (accepted : List String) (token : Option Token)
    (now : Nat) :
    role_guard accepted token now = .error .unauthenticated ∨
      role_guard accepted token now = .error .forbidden ∨
      ∃ ident, role_guard accepted token now = .ok ident := by
  cases token with
  | none => exact .inl rfl
  | some t =>
      cases hv : verify_token t now with
      | error e => exact .inl (role_guard_invalid accepted t now e hv)
      | ok ident =>
          by_cases hm : ident.role ∈ accepted
          · exact .inr (.inr ⟨ident, role_guard_ok accepted t now ident hv hm⟩)
          · exact .inr (.inl (role_guard_forbidden accepted t now ident hv hm))

/-- C2: every guarded operation fails with `ForbiddenError` when invoked with a
valid token whose role is outside its accepted set, with no read of the store
(the result is the same for every store) and no mutation (the store component
is returned unchanged); with no token, or with a token that does not verify, it
fails with `UnauthenticatedError`. -/
theorem guarded_ops_enforce_roles (t : Token) (now : Nat) (ident : Identity)
    (st : Store) (inC : RegisterCustomer) (inS : RegisterSupplier)
    (hver : verify_token t now = .ok ident) :
    ((ident.role ≠ ROLE_CUSTOMER ∧ ident.role ≠ ROLE_SUPPLIER) →
        get_user (some t) now st = .err .forbidden) ∧
    (ident.role ≠ ROLE_CUSTOMER →
        customer_profile (some t) now st = .err .forbidden ∧
        register_customer inC (some t) now st = (.err .forbidden, st)) ∧
    (ident.role ≠ ROLE_SUPPLIER →
        supplier_profile (some t) now st = .err .forbidden ∧
        register_supplier inS (some t) now st = (.err .forbidden, st)) ∧
    (get_user none now st = .err .unauthenticated ∧
      customer_profile none now st = .err .unauthenticated ∧
      supplier_profile none now st = .err .unauthenticated ∧
      register_customer inC none now st = (.err .unauthenticated, st) ∧
      register_supplier inS none now st = (.err .unauthenticated, st)) ∧
    (∀ t2 e, verify_token t2 now = .error e →
      get_user (some t2) now st = .err .unauthenticated ∧
      customer_profile (some t2) now st = .err .unauthenticated ∧
      supplier_profile (some t2) now st = .err .unauthenticated ∧
      register_customer inC (some t2) now st = (.err .unauthenticated, st) ∧
      register_supplier inS (some t2) now st = (.err .unauthenticated, st)) := by
  refine ⟨?_, ?_, ?_, ?_, ?_⟩
  · intro ⟨h1, h2⟩
    have hg := role_guard_forbidden [ROLE_CUSTOMER, ROLE_SUPPLIER] t now ident hver
      (by simp [h1, h2])
    simp [get_user, hg]
  · intro h1
    have hg := role_guard_forbidden [ROLE_CUSTOMER] t now ident hver (by simp [h1])
    exact ⟨by simp [customer_profile, hg], by simp [register_customer, hg]⟩
  · intro h2
    have hg := role_guard_forbidden [ROLE_SUPPLIER] t now ident hver (by simp [h2])
    exact ⟨by simp [supplier_profile, hg], by simp [register_supplier, hg]⟩
  · exact ⟨rfl, rfl, rfl, rfl, rfl⟩
  · intro t2 e hv
    refine ⟨?_, ?_, ?_, ?_, ?_⟩
    · simp [get_user, role_guard_invalid _ t2 now e hv]
    · simp [customer_profile, role_guard_invalid _ t2 now e hv]
    · simp [supplier_profile, role_guard_invalid _ t2 now e hv]
    · simp [register_customer, role_guard_invalid _ t2 now e hv]
    · simp [register_supplier, role_guard_invalid _ t2 now e hv]

/-- Witness for C2: a valid token carrying the unrecognized role "admin"
against all five guarded operations, plus the missing-token and
malformed-token cases, on a concrete store. -/
theorem guarded_ops_enforce_roles_witness :
    verify_token (.signed "1" "admin" 9) 3 = .ok ⟨"1", "admin"⟩ ∧
      (get_user (some (.signed "1" "admin" 9)) 3 ⟨[], [], [], []⟩ = .err .forbidden ∧
        customer_profile (some (.signed "1" "admin" 9)) 3 ⟨[], [], [], []⟩ = .err .forbidden ∧
        register_customer ⟨"Ada", "L"⟩ (some (.signed "1" "admin" 9)) 3 ⟨[], [], [], []⟩ =
          (.err .forbidden, ⟨[], [], [], []⟩) ∧
        supplier_profile (some (.signed "1" "admin" 9)) 3 ⟨[], [], [], []⟩ = .err .forbidden ∧
        register_supplier ⟨"555"⟩ (some (.signed "1" "admin" 9)) 3 ⟨[], [], [], []⟩ =
          (.err .forbidden, ⟨[], [], [], []⟩) ∧
        get_user none 3 ⟨[], [], [], []⟩ = .err .unauthenticated ∧
        get_user (some (.malformed "xx")) 3 ⟨[], [], [], []⟩ = .err .unauthenticated) := by
  have h := guarded_ops_enforce_roles (.signed "1" "admin" 9) 3 ⟨"1", "admin"⟩
    ⟨[], [], [], []⟩ ⟨"Ada", "L"⟩ ⟨"555"⟩ rfl
  exact ⟨rfl, (h.1 (by decide)), (h.2.1 (by decide)).1, (h.2.1 (by decide)).2,
    (h.2.2.1 (by decide)).1, (h.2.2.1 (by decide)).2, h.2.2.2.1.1,
    (h.2.2.2.2 (.malformed "xx") .invalidToken rfl).1⟩

/-- C3 (code bug): on the single-row lookups whose expected row is absent the
code panics instead of returning `NotFoundError` — `login` with an email
matching no user, and `get_user` / `customer_profile` / `supplier_profile`
with a valid token whose user has no stored row, all hit the `.unwrap()` on
`None` (the `map_err(|_| "...not found")` in the source converts only database
errors, not the absent row). -/
theorem absent_row_panics_instead_of_not_found :
    login ⟨"ghost@example.com", "pw"⟩ 0 ⟨[], [], [], []⟩ = .panic ∧
      get_user (some (.signed "1" ROLE_CUSTOMER 9)) 0 ⟨[], [], [], []⟩ = .panic ∧
      customer_profile (some (.signed "1" ROLE_CUSTOMER 9)) 0 ⟨[], [], [], []⟩ = .panic ∧
      supplier_profile (some (.signed "1" ROLE_SUPPLIER 9)) 0 ⟨[], [], [], []⟩ = .panic :=
  ⟨rfl, rfl, rfl, rfl⟩

/-- C6: registering an email already present in the users store fails with the
duplicate-email error, writes no row and leaves the store unchanged. -/
theorem register_user_duplicate_email (input : RegisterUser) (now : Nat)
    (st : Store) (u : UserRow) (hu : u ∈ st.users) (he : u.email = input.email) :
    register_user input now st = ⟨.err .duplicateEmail, st, false⟩ := by
  have hfind : (st.users.find? (fun v => v.email == input.email)).isSome := by
    rw [List.find?_isSome]
    exact ⟨u, hu, by simp [he]⟩
  simp [register_user, hfind]

/-- Witness for C6: a second registration of `"a@b.c"` on a one-user store. -/
theorem register_user_duplicate_email_witness :
    UserRow.mk 1 "a@b.c" (.hashed 0 "Str0ngPass") .customer ∈
        (⟨[⟨1, "a@b.c", .hashed 0 "Str0ngPass", .customer⟩], [], [], []⟩ : Store).users ∧
      register_user ⟨"a@b.c", "An0therPass", "customer"⟩ 5
          ⟨[⟨1, "a@b.c", .hashed 0 "Str0ngPass", .customer⟩], [], [], []⟩ =
        ⟨.err .duplicateEmail,
          ⟨[⟨1, "a@b.c", .hashed 0 "Str0ngPass", .customer⟩], [], [], []⟩, false⟩ :=
  ⟨by decide,
    register_user_duplicate_email ⟨"a@b.c", "An0therPass", "customer"⟩ 5
      ⟨[⟨1, "a@b.c", .hashed 0 "Str0ngPass", .customer⟩], [], [], []⟩
      ⟨1, "a@b.c", .hashed 0 "Str0ngPass", .customer⟩ (by decide) rfl⟩

/-- C7 counterexample: an input whose password `"weak"` fails the strength
policy but whose role string `"admin"` is unrecognized makes `register_user`
report `InvalidRoleError`, not `PolicyError` — the role check runs first, so
the claim does not hold of *every* input with a weak password. -/
theorem register_user_weak_password_not_always_policy :
    check_password_strength "weak" = .error .policy ∧
      (register_user ⟨"new@example.com", "weak", "admin"⟩ 0
          ⟨[], [], [], []⟩).result ≠ .err .policy := by
  refine ⟨rfl, ?_⟩
  decide

/-- C7 (amended): for every `register_user` input whose email is not already
present and whose role string is recognized, a password failing the strength
policy makes the operation return `PolicyError` with no row written (store
unchanged) and the password never hashed — the strength check runs strictly
before hashing. -/
theorem register_user_weak_password_policy (input : RegisterUser) (now : Nat)
    (st : Store)
    (hemail : ∀ u ∈ st.users, u.email ≠ input.email)
    (hrole : input.role = ROLE_CUSTOMER ∨ input.role = ROLE_SUPPLIER)
    (hweak : check_password_strength input.password = .error .policy) :
    register_user input now st = ⟨.err .policy, st, false⟩ := by
  have hfind : st.users.find? (fun v => v.email == input.email) = none := by
    rw [List.find?_eq_none]
    intro u hu
    simp [hemail u hu]
  rcases hrole with h | h <;>
    simp [register_user, hfind, h, hweak, ROLE_CUSTOMER, ROLE_SUPPLIER]

/-- Witness for C7 (amended): a weak password with a fresh email and the
customer role on the empty store. -/
theorem register_user_weak_password_policy_witness :
    (∀ u ∈ (⟨[], [], [], []⟩ : Store).users, u.email ≠ "new@example.com") ∧
      check_password_strength "weak" = .error .policy ∧
      register_user ⟨"new@example.com", "weak", "customer"⟩ 0 ⟨[], [], [], []⟩ =
        ⟨.err .policy, ⟨[], [], [], []⟩, false⟩ :=
  ⟨by simp, rfl,
    register_user_weak_password_policy ⟨"new@example.com", "weak", "customer"⟩ 0
      ⟨[], [], [], []⟩ (by simp) (.inl rfl) rfl⟩

/-- C8: when the login email resolves to a stored user, a readable stored hash
with a non-matching password yields the password-mismatch error, an
unrecognized stored hash encoding yields the unreadable-hash error, and the
two error kinds are distinct. -/
theorem login_failure_kinds (login_details : LoginUser) (now : Nat) (st : Store)
    (user : UserRow)
    (hfind : st.users.find? (fun u => u.email == login_details.email) = some user) :
    (∀ salt digest, user.password = .hashed salt digest →
        digest ≠ login_details.password →
        login login_details now st = .err .passwordMismatch) ∧
    (∀ raw, user.password = .unreadable raw →
        login login_details now st = .err .unreadableHash) ∧
    Err.passwordMismatch ≠ Err.unreadableHash := by
  refine ⟨?_, ?_, by decide⟩
  · intro salt digest hpw hne
    have hb : (digest == login_details.password) = false := by
      simp [hne]
    simp [login, hfind, verify_password, hpw, hb]
  · intro raw hpw
    simp [login, hfind, verify_password, hpw]

/-- Witness for C8: a wrong password against a readable hash on one store, and
any password against an unreadable hash on another. -/
theorem login_failure_kinds_witness :
    ((⟨[⟨1, "u@x.c", .hashed 0 "RightPass1", .customer⟩], [], [], []⟩ : Store).users.find?
        (fun u => u.email == "u@x.c") = some ⟨1, "u@x.c", .hashed 0 "RightPass1", .customer⟩) ∧
      login ⟨"u@x.c", "WrongPass1"⟩ 0
          ⟨[⟨1, "u@x.c", .hashed 0 "RightPass1", .customer⟩], [], [], []⟩ =
        .err .passwordMismatch ∧
      login ⟨"v@x.c", "AnyPass111"⟩ 0
          ⟨[⟨2, "v@x.c", .unreadable "garbage", .customer⟩], [], [], []⟩ =
        .err .unreadableHash :=
  ⟨by simp,
    (login_failure_kinds ⟨"u@x.c", "WrongPass1"⟩ 0
        ⟨[⟨1, "u@x.c", .hashed 0 "RightPass1", .customer⟩], [], [], []⟩
        ⟨1, "u@x.c", .hashed 0 "RightPass1", .customer⟩ (by simp)).1
      0 "RightPass1" rfl (by decide),
    (login_failure_kinds ⟨"v@x.c", "AnyPass111"⟩ 0
        ⟨[⟨2, "v@x.c", .unreadable "garbage", .customer⟩], [], [], []⟩
        ⟨2, "v@x.c", .unreadable "garbage", .customer⟩ (by simp)).2.1
      "garbage" rfl⟩

/-- C9: `register_user` validates in the fixed order duplicate-email check,
then role-string validation, then password strength: an existing email is
reported whatever the other fields hold, an unrecognized role is reported
whenever the email is fresh, and a weak password is reported only once the
email is fresh and the role recognized. -/
theorem register_user_validation_order (input : RegisterUser) (now : Nat)
    (st : Store) :
    ((st.users.find? (fun u => u.email == input.email)).isSome →
        (register_user input now st).result = .err .duplicateEmail) ∧
    (st.users.find? (fun u => u.email == input.email) = none →
      input.role ≠ ROLE_CUSTOMER → input.role ≠ ROLE_SUPPLIER →
        (register_user input now st).result = .err .invalidRole) ∧
    (st.users.find? (fun u => u.email == input.email) = none →
      (input.role = ROLE_CUSTOMER ∨ input.role = ROLE_SUPPLIER) →
      check_password_strength input.password = .error .policy →
        (register_user input now st).result = .err .policy) := by
  refine ⟨?_, ?_, ?_⟩
  · intro hdup
    simp [register_user, hdup]
  · intro hfresh hc hs
    simp [register_user, hfresh, hc, hs]
  · intro hfresh hrole hweak
    rcases hrole with h | h <;>
      simp [register_user, hfresh, h, hweak, ROLE_CUSTOMER, ROLE_SUPPLIER]

/-- Witness for C9: on a one-user store, a duplicate email masks both an
unrecognized role and a weak password; with a fresh email the unrecognized
role masks the weak password; with a fresh email and a recognized role the
weak password is reported. -/
theorem register_user_validation_order_witness :
    (register_user ⟨"a@b.c", "weak", "admin"⟩ 0
        ⟨[⟨1, "a@b.c", .hashed 0 "GoodPass12", .customer⟩], [], [], []⟩).result =
      .err .duplicateEmail ∧
    (register_user ⟨"new@b.c", "weak", "admin"⟩ 0
        ⟨[⟨1, "a@b.c", .hashed 0 "GoodPass12", .customer⟩], [], [], []⟩).result =
      .err .invalidRole ∧
    (register_user ⟨"new@b.c", "weak", "customer"⟩ 0
        ⟨[⟨1, "a@b.c", .hashed 0 "GoodPass12", .customer⟩], [], [], []⟩).result =
      .err .policy :=
  ⟨(register_user_validation_order ⟨"a@b.c", "weak", "admin"⟩ 0
      ⟨[⟨1, "a@b.c", .hashed 0 "GoodPass12", .customer⟩], [], [], []⟩).1 (by simp),
   (register_user_validation_order ⟨"new@b.c", "weak", "admin"⟩ 0
      ⟨[⟨1, "a@b.c", .hashed 0 "GoodPass12", .customer⟩], [], [], []⟩).2.1
      (by simp) (by decide) (by decide),
   (register_user_validation_order ⟨"new@b.c", "weak", "customer"⟩ 0
      ⟨[⟨1, "a@b.c", .hashed 0 "GoodPass12", .customer⟩], [], [], []⟩).2.2
      (by simp) (.inl rfl) rfl⟩

/-- C10: `get_user`, `customer_profile` and `supplier_profile` use the verified
token's user_id string directly in the row filter without parsing it, so none
of them can ever fail with the identity-parse error; `register_customer` and
`register_supplier` do parse it as an integer and fail with exactly that error
on a valid token carrying a non-numeric user_id of the accepted role. -/
theorem identity_parse_error_locations (token : Option Token) (now : Nat)
    (st : Store) (t : Token) (ident : Identity) (inC : RegisterCustomer)
    (inS : RegisterSupplier)
    (hver : verify_token t now = .ok ident)
    (hnum : parse_i32 ident.user_id = none) :
    (get_user token now st ≠ .err .invalidIdentity ∧
      customer_profile token now st ≠ .err .invalidIdentity ∧
      supplier_profile token now st ≠ .err .invalidIdentity) ∧
    (ident.role = ROLE_CUSTOMER →
        register_customer inC (some t) now st = (.err .invalidIdentity, st)) ∧
    (ident.role = ROLE_SUPPLIER →
        register_supplier inS (some t) now st = (.err .invalidIdentity, st)) := by
  refine ⟨⟨?_, ?_, ?_⟩, ?_, ?_⟩
  · rcases role_guard_error_cases [ROLE_CUSTOMER, ROLE_SUPPLIER] token now with
      hg | hg | ⟨i, hg⟩
    · simp [get_user, hg]
    · simp [get_user, hg]
    · cases hf : st.users.find? (fun u => toString u.user_id == i.user_id) <;>
        simp [get_user, hg, hf]
  · rcases role_guard_error_cases [ROLE_CUSTOMER] token now with hg | hg | ⟨i, hg⟩
    · simp [customer_profile, hg]
    · simp [customer_profile, hg]
    · cases hf : st.customers.find? (fun c => toString c.user_id == i.user_id) <;>
        simp [customer_profile, hg, hf]
  · rcases role_guard_error_cases [ROLE_SUPPLIER] token now with hg | hg | ⟨i, hg⟩
    · simp [supplier_profile, hg]
    · simp [supplier_profile, hg]
    · cases hf : st.suppliers.find? (fun s => toString s.user_id == i.user_id) <;>
        simp [supplier_profile, hg, hf]
  · intro hrole
    have hg := role_guard_ok [ROLE_CUSTOMER] t now ident hver (by simp [hrole])
    simp [register_customer, hg, hnum]
  · intro hrole
    have hg := role_guard_ok [ROLE_SUPPLIER] t now ident hver (by simp [hrole])
    simp [register_supplier, hg, hnum]

/-- Witness for C10: a valid token whose user_id claim is the non-numeric
string "abc"; the profile lookups cannot produce the parse error while
`register_customer` (customer role) and `register_supplier` (supplier role)
produce exactly it. -/
theorem identity_parse_error_locations_witness :
    verify_token (.signed "abc" "customer" 9) 0 = .ok ⟨"abc", "customer"⟩ ∧
      parse_i32 "abc" = none ∧
      (get_user (some (.signed "abc" "customer" 9)) 0 ⟨[], [], [], []⟩ ≠
          .err .invalidIdentity ∧
        customer_profile (some (.signed "abc" "customer" 9)) 0 ⟨[], [], [], []⟩ ≠
          .err .invalidIdentity ∧
        supplier_profile (some (.signed "abc" "customer" 9)) 0 ⟨[], [], [], []⟩ ≠
          .err .invalidIdentity) ∧
      register_customer ⟨"Ada", "L"⟩ (some (.signed "abc" "customer" 9)) 0
          ⟨[], [], [], []⟩ = (.err .invalidIdentity, ⟨[], [], [], []⟩) ∧
      register_supplier ⟨"555"⟩ (some (.signed "xyz" "supplier" 9)) 0
          ⟨[], [], [], []⟩ = (.err .invalidIdentity, ⟨[], [], [], []⟩) := by
  have h1 := identity_parse_error_locations
    (some (.signed "abc" "customer" 9)) 0 ⟨[], [], [], []⟩
    (.signed "abc" "customer" 9) ⟨"abc", "customer"⟩ ⟨"Ada", "L"⟩ ⟨"555"⟩ rfl (by decide)
  have h2 := identity_parse_error_locations
    (some (.signed "xyz" "supplier" 9)) 0 ⟨[], [], [], []⟩
    (.signed "xyz" "supplier" 9) ⟨"xyz", "supplier"⟩ ⟨"Ada", "L"⟩ ⟨"555"⟩ rfl (by decide)
  exact ⟨rfl, by decide, h1.1, h1.2.1 rfl, h2.2.2 rfl⟩
